import Mathlib

/-!
Verification of the dataset edit-session model implemented in `dataset_edit.py`
of the `tts-dataset-edit` repository.

The program keeps a list of `WavAndTranscript` records (audio clip + transcript),
lets the user edit transcripts and toggle `pending_review` / `deleted` flags,
filters the displayed list, and persists the session to
`metadata.edited.json` / `metadata.edited.csv` in the dataset directory.

The embedding below translates the pure content of the relevant methods of
`MainWindow` (file `dataset_edit.py`) into executable Lean definitions:

* the record model `WavAndTranscript` and its `asdict` serialization;
* `pathStem`, the `pathlib.PurePath.stem` computation on a final path component;
* `saveEntries` / `save`, lines 523-550 (`MainWindow.save`);
* `loadEntry` / `loadEntries` / `loadJson`, the JSON branch of
  `MainWindow.onOpen`, lines 252-264 and 274;
* `resolveMetadata`, the source-file resolution of `MainWindow.onOpen`,
  lines 233-250;
* `onExportCSV` together with a model of `csv.writer` (excel dialect,
  delimiter `|`), lines 300-324;
* the filter handlers `onFilterSearch` / `onFilterPendingReview` /
  `onFilterDeleted`, lines 428-491, as transformations of a `FilterState`;
* `onSave`, lines 294-298, including Python name resolution of the
  identifier `edited_metadata` used in its success message.

File-system writes are modelled by returning the pair (file name, content)
that the code passes to `open(...).write` / `json.dump`; user prompts are
modelled as explicit Boolean decision inputs; a Python exception escaping a
handler is modelled by `Except.error`.
-/

/-! ### JSON values and dictionaries -/

/-- A JSON scalar as it appears in the metadata records of this program.
`json.dump` / `json.load` only ever see integers, strings and booleans here. -/
inductive JValue where
  | int (i : Int)
  | str (s : String)
  | bool (b : Bool)
deriving DecidableEq, Repr

/-- A JSON object: the ordered key-value pairs of a Python `dict` as built by
`WavAndTranscript.asdict` and serialized by `json.dump`. -/
abbrev JDict := List (String × JValue)

/-- Lookup of a key in a dict, `d[k]` / `d.get(k)`: the value of the first
pair whose key equals `k`, if any. -/
def dictGet (d : JDict) (k : String) : Option JValue :=
  (d.find? (fun kv => kv.1 == k)).map (fun kv => kv.2)

/-! ### `pathlib` fragments

The session model applies exactly two `pathlib` operations to file names:
`Path.stem` (in `asdict` and in the CSV export) and `Path.with_suffix`
(to derive `metadata.edited.csv`).  Both depend only on the final path
component, so paths are represented by that component (a `String`). -/

/-- Index of the last `'.'` in a character list, if any: `str.rfind('.')`
restricted to lists that contain the character. -/
def lastDotIdx : List Char → Option Nat
  | [] => none
  | c :: cs =>
    match lastDotIdx cs with
    | some i => some (i + 1)
    | none => if c = '.' then some 0 else none

/-- CPython `PurePath.stem` on a final path component `name`: the name with
its suffix removed, where the suffix is the part from the last dot `i`
provided `0 < i < len(name) - 1` (a purely leading or trailing dot starts
no suffix). -/
def pathStem (name : String) : String :=
  match lastDotIdx name.data with
  | some i => if 0 < i ∧ i < name.data.length - 1 then String.mk (name.data.take i) else name
  | none => name

/-- CPython `PurePath.with_suffix`: the stem of the final component with the
new suffix appended. -/
def withSuffix (name suffix : String) : String :=
  pathStem name ++ suffix

/-- Module-level constant `EDITED_METADATA_FILENAME` of `dataset_edit.py`. -/
def EDITED_METADATA_FILENAME : String := "metadata.edited.json"

/-! ### The record model -/

/-- One dataset record: the `WavAndTranscript` dataclass of `dataset_edit.py`.
The `wavpath : Path` field is represented by its final path component
`wavname` (for example `"a.wav"`): `Path.stem` is the only operation the
session model applies to it, and it depends only on that component. -/
structure WavAndTranscript where
  idx : Int
  wavname : String
  transcript : String
  pending_review : Bool
  deleted : Bool
deriving DecidableEq, Repr

/-- `WavAndTranscript.asdict` (lines 45-52): the record serialized into
`metadata.edited.json`.  Note that the keys written are `"idx"` and
`"text"`, with `"filename"` holding the stem of the audio path. -/
def WavAndTranscript.asdict (o : WavAndTranscript) : JDict :=
  [("idx", JValue.int o.idx),
   ("filename", JValue.str (pathStem o.wavname)),
   ("text", JValue.str o.transcript),
   ("pending_review", JValue.bool o.pending_review),
   ("deleted", JValue.bool o.deleted)]

/-! ### Sorting

Both `MainWindow.onOpen` (line 274) and `MainWindow.save` (line 540) call
Python's stable `list.sort` with the key `idx`.  A stable sort by a key is
computed by `List.insertionSort` with the reflexive comparison on that key:
`orderedInsert` places each element before the strictly larger ones and
after the equal ones that were already in place, which is exactly what a
stable sort produces. -/

/-- Value of the `"idx"` key of a saved record.  `operator.itemgetter("idx")`
would raise on a dict without the key; every dict this program sorts is
produced by `asdict`, which always writes the key, so the `0` fallback of
the total Lean function is never reached on reachable inputs. -/
def dictIdx (d : JDict) : Int :=
  match dictGet d "idx" with
  | some (JValue.int i) => i
  | _ => 0

/-- Comparison used by `entries.sort(key=operator.itemgetter("idx"))`. -/
def dictLe (d e : JDict) : Prop := dictIdx d ≤ dictIdx e

instance : DecidableRel dictLe := fun d e => inferInstanceAs (Decidable (dictIdx d ≤ dictIdx e))

instance : IsTotal JDict dictLe := ⟨fun d e => le_total (dictIdx d) (dictIdx e)⟩

instance : IsTrans JDict dictLe := ⟨fun _ _ _ h h2 => le_trans h h2⟩

/-- Comparison used by `objs.sort(key=operator.attrgetter("idx"))`. -/
def objLe (o p : WavAndTranscript) : Prop := o.idx ≤ p.idx

instance : DecidableRel objLe := fun o p => inferInstanceAs (Decidable (o.idx ≤ p.idx))

instance : IsTotal WavAndTranscript objLe := ⟨fun o p => le_total o.idx p.idx⟩

instance : IsTrans WavAndTranscript objLe := ⟨fun _ _ _ h h2 => le_trans h h2⟩

/-! ### Saving (`MainWindow.save`, lines 523-550) -/

/-- Lines 536-542 of `MainWindow.save`: serialize every entry (deleted ones
included) with `asdict` and sort the records by their `"idx"` key; the
resulting list is what `json.dump` writes to `metadata.edited.json`. -/
def saveEntries (objs : List WavAndTranscript) : List JDict :=
  List.insertionSort dictLe (objs.map WavAndTranscript.asdict)

/-- Python exceptions that the modelled handlers can raise. -/
inductive PyError where
  | nameError
  | osError
deriving DecidableEq, Repr

instance {ε α : Type} [DecidableEq ε] [DecidableEq α] : DecidableEq (Except ε α) := fun a b =>
  match a, b with
  | Except.error e, Except.error f => decidable_of_iff (e = f) (by simp)
  | Except.error _, Except.ok _ => Decidable.isFalse (by simp)
  | Except.ok _, Except.error _ => Decidable.isFalse (by simp)
  | Except.ok x, Except.ok y => decidable_of_iff (x = y) (by simp)

/-- The fields of `MainWindow` state read by the persistence operations.
`focusedPos` is `wavList.GetFocusedItem()`: the 0-based row of the focused
item in the currently *displayed* list (`none` models `wx.NOT_FOUND`). -/
structure SessionState where
  objects : List WavAndTranscript
  view : List WavAndTranscript
  dirty : Bool
  isSourceCsv : Bool
  editedFileExists : Bool
  focusedPos : Option Nat
deriving DecidableEq, Repr

/-- Observable outcome of one call to `MainWindow.save`: the JSON file
written (name relative to the dataset directory, records), the history
sidecar written (name, integer), whether the title is dirty afterwards, and
the Python-level result — `Except.ok b` when the method returns `b`,
`Except.error e` when an exception escapes it. -/
structure SaveOutcome where
  jsonFile : Option (String × List JDict)
  historyFile : Option (String × Nat)
  dirtyAfter : Bool
  result : Except PyError Bool
deriving DecidableEq, Repr

/-- `MainWindow.save` (lines 523-550).  `overwriteYes` is the user's answer
to the possible-data-loss prompt (consulted only when the prompt is shown:
CSV-rooted session with an existing `metadata.edited.json`).
`historyWriteFails` is the environment: whether `history_file.write_text`
raises an `OSError`.  The code has no try/except around that write, so a
failure escapes the method after `json.dump` and `set_title()` have already
run. -/
def save (st : SessionState) (overwriteYes : Bool) (historyWriteFails : Bool) : SaveOutcome :=
  if !st.dirty then
    ⟨none, none, st.dirty, Except.ok false⟩
  else if st.isSourceCsv && st.editedFileExists && !overwriteYes then
    ⟨none, none, st.dirty, Except.ok false⟩
  else
    let entries := saveEntries st.objects
    match st.focusedPos with
    | some pos =>
      if historyWriteFails then
        ⟨some (EDITED_METADATA_FILENAME, entries), none, false, Except.error PyError.osError⟩
      else
        ⟨some (EDITED_METADATA_FILENAME, entries), some (".last_idx", pos), false, Except.ok true⟩
    | none => ⟨some (EDITED_METADATA_FILENAME, entries), none, false, Except.ok true⟩

/-! ### Loading (`MainWindow.onOpen`) -/

/-- Kind of metadata file the loader ends up parsing. -/
inductive MetadataSource where
  | csv
  | json
deriving DecidableEq, Repr

/-- Lines 233-250 of `MainWindow.onOpen`: which metadata file a chosen
directory is loaded from.  The code first demands `metadata.csv` and shows
an error dialog (returning without a session) when it is missing; only
then, if `metadata.edited.json` also exists, the user is offered to resume
from it (`resumeYes`).  `none` models the error return. -/
def resolveMetadata (csvExists jsonExists resumeYes : Bool) : Option MetadataSource :=
  if !csvExists then none
  else if jsonExists && resumeYes then some MetadataSource.json
  else some MetadataSource.csv

/-- Python `entry.get(key, False)` restricted to boolean values: a missing
key yields `false`; a present boolean is taken as is.  A present non-boolean
would be stored untyped by Python; the typed embedding rejects it (`none`),
which never happens on records written by `save`. -/
def boolOrDefault (v : Option JValue) : Option Bool :=
  match v with
  | none => some false
  | some (JValue.bool b) => some b
  | some _ => none

/-- Lines 255-264 of `MainWindow.onOpen` (JSON branch), one record:
`WavAndTranscript(idx=entry["idx"], wavpath=<dir>/wavs/<filename>.wav,
transcript=entry["text"], pending_review=..., deleted=...)`.  The final
component of the rebuilt `wavpath` is `filename ++ ".wav"`.  `none` models
the exception Python raises on a missing `"idx"`, `"filename"` or `"text"`
key (or the typed embedding rejecting a non-scalar value). -/
def loadEntry (d : JDict) : Option WavAndTranscript :=
  match dictGet d "idx", dictGet d "filename", dictGet d "text",
        boolOrDefault (dictGet d "pending_review"), boolOrDefault (dictGet d "deleted") with
  | some (JValue.int i), some (JValue.str f), some (JValue.str t), some pr, some dl =>
    some ⟨i, f ++ ".wav", t, pr, dl⟩
  | _, _, _, _, _ => none

/-- The `for entry in json.load(json_file)` loop of `onOpen`: parse the
records in file order; any failing record aborts the load. -/
def loadEntries : List JDict → Option (List WavAndTranscript)
  | [] => some []
  | d :: ds =>
    match loadEntry d, loadEntries ds with
    | some o, some os => some (o :: os)
    | _, _ => none

/-- The JSON branch of `onOpen` followed by line 274: parse all records,
then sort the objects by `idx` ascending (stable). -/
def loadJson (ds : List JDict) : Option (List WavAndTranscript) :=
  (loadEntries ds).map (fun os => List.insertionSort objLe os)

/-! ### CSV export (`MainWindow.onExportCSV`, lines 300-324) -/

/-- Python `str.isspace` on one character: the set of characters `str.strip()`
removes (ASCII whitespace, the C1 file/group/record/unit separators, and the
Unicode space characters). -/
def isPySpace (c : Char) : Bool :=
  c = ' ' || c = '\t' || c = '\n' || c = '\r' || c = '\x0b' || c = '\x0c' ||
  c = '\x1c' || c = '\x1d' || c = '\x1e' || c = '\x1f' || c = '\x85' || c = '\xa0' ||
  c = ' ' || (' ' ≤ c && c ≤ ' ') ||
  c = ' ' || c = ' ' || c = ' ' || c = ' ' || c = '　'

/-- Python `str.strip()`: remove leading and trailing whitespace. -/
def pyStrip (s : String) : String :=
  String.mk (((s.data.dropWhile isPySpace).reverse.dropWhile isPySpace).reverse)

/-- Whether `csv.writer` (dialect `excel` with `delimiter="|"`, default
`QUOTE_MINIMAL`) must quote a field: it contains the delimiter, the quote
character, or a character of the line terminator. -/
def csvNeedsQuoting (s : String) : Bool :=
  s.data.any (fun c => c = '|' || c = '"' || c = '\r' || c = '\n')

/-- A quoted CSV field: the text between double quotes with each inner
double quote doubled (`doublequote=True`). -/
def csvQuote (s : String) : String :=
  "\"" ++ String.mk (s.data.foldr (fun c acc => if c = '"' then '"' :: '"' :: acc else c :: acc) []) ++ "\""

/-- One serialized CSV field under `QUOTE_MINIMAL`. -/
def csvField (s : String) : String :=
  if csvNeedsQuoting s then csvQuote s else s

/-- The fields of one row joined by the delimiter `|`. -/
def joinFields : List String → String
  | [] => ""
  | [f] => csvField f
  | f :: fs => csvField f ++ "|" ++ joinFields fs

/-- One row as written by `csv.writer.writerow`: the joined fields followed
by the dialect's line terminator.  The `excel` dialect terminates rows with
`"\r\n"`, and the file was opened with `newline="\n"`, which translates no
characters, so the bytes on disk end each row with `"\r\n"`. -/
def csvLine (fields : List String) : String :=
  joinFields fields ++ "\r\n"

/-- `csv.writer.writerows`: the concatenation of the serialized rows. -/
def csvContent (rows : List (List String)) : String :=
  String.join (rows.map csvLine)

/-- Lines 311-315 of `onExportCSV`: one row `(stem, "", transcript.strip())`
per entry whose `deleted` flag is unset, in the order of the underlying
collection. -/
def exportRows (objs : List WavAndTranscript) : List (List String) :=
  (objs.filter (fun o => !o.deleted)).map
    (fun o => [pathStem o.wavname, "", pyStrip o.transcript])

/-- Line 302 of `onExportCSV`:
`any(filter(operator.attrgetter("pending_review"), self._objects))` — note
that it scans all of `self._objects`, deleted entries included. -/
def hasPendingReview (objs : List WavAndTranscript) : Bool :=
  objs.any (fun o => o.pending_review)

/-- Observable outcome of one call to `onExportCSV`: the outcome of the
implicit `save()`, the CSV file written (name, content) if any, and the
Python-level result of the handler. -/
structure ExportOutcome where
  saveOutcome : SaveOutcome
  csvFile : Option (String × String)
  result : Except PyError Unit
deriving DecidableEq, Repr

/-- `MainWindow.onExportCSV` (lines 300-324): call `save()` (its return
value is ignored, but an exception escaping it aborts the handler), then,
if any entry has `pending_review` set, prompt the user (`exportAnywayYes`);
declining returns without touching the export file.  Otherwise the
non-deleted rows are written to `metadata.edited.json` with its suffix
replaced by `.csv`. -/
def onExportCSV (st : SessionState) (overwriteYes historyWriteFails exportAnywayYes : Bool) :
    ExportOutcome :=
  let so := save st overwriteYes historyWriteFails
  match so.result with
  | Except.error e => ⟨so, none, Except.error e⟩
  | Except.ok _ =>
    if hasPendingReview st.objects && !exportAnywayYes then
      ⟨so, none, Except.ok ()⟩
    else
      ⟨so, some (withSuffix EDITED_METADATA_FILENAME ".csv", csvContent (exportRows st.objects)),
        Except.ok ()⟩

/-! ### Filtering (`onFilterSearch` / `onFilterPendingReview` / `onFilterDeleted`,
lines 428-491)

The three toggle buttons and the displayed list.  A handler runs after the
clicked button's value has flipped; it resets the other two buttons with
`SetValue(False)`, which in wx fires no event, so the other handlers do not
run and the displayed list is not rebuilt by the reset. -/

/-- Filter-related `MainWindow` state: the full collection `self._objects`,
the displayed list `self.wavList._objects`, and the three toggle buttons. -/
structure FilterState where
  objects : List WavAndTranscript
  view : List WavAndTranscript
  searchOn : Bool
  pendingOn : Bool
  deletedOn : Bool
deriving DecidableEq, Repr

/-- Python `needle in haystack` on strings: substring containment,
case-sensitive. -/
def strContains (haystack needle : String) : Bool :=
  decide (needle.data <:+: haystack.data)

/-- `regex.compile(pattern, regex.U).match(text)` for a pattern that is a
plain literal (no metacharacters): `match` anchors at the start of the
string, so it succeeds exactly when `text` starts with the pattern.  The
embedding models the regex engine on this literal fragment, which is all
the claims exercise; such a pattern always compiles, so the
invalid-pattern branch of the handler (lines 442-445) is unreachable
here. -/
def regexLiteralMatch (pattern text : String) : Bool :=
  decide (pattern.data <+: text.data)

/-- Lines 446-454 of `onFilterSearch`: the objects of the *displayed* list
that match the query, regex mode anchoring at the start of the transcript,
plain mode searching for a substring. -/
def searchMatches (q : String) (isRegex : Bool) (objs : List WavAndTranscript) :
    List WavAndTranscript :=
  if isRegex then objs.filter (fun o => regexLiteralMatch q o.transcript)
  else objs.filter (fun o => strContains o.transcript q)

/-- `MainWindow.onFilterSearch` (lines 428-461), entered with `searchOn`
already holding the button's new value: reset the other two buttons; when
the button is now on, ask for a query (`q`, `isRegex`); an empty query or a
query without matches turns the button back off and leaves the displayed
list unchanged; otherwise the matches of the displayed list
(`self.wavList._objects`, not `self._objects`) become the new displayed
list.  When the button is now off, the full collection is displayed
again. -/
def onFilterSearch (st : FilterState) (q : String) (isRegex : Bool) : FilterState :=
  if st.searchOn then
    if q = "" then ⟨st.objects, st.view, false, false, false⟩
    else
      let objs := searchMatches q isRegex st.view
      if objs.isEmpty then ⟨st.objects, st.view, false, false, false⟩
      else ⟨st.objects, objs, true, false, false⟩
  else ⟨st.objects, st.objects, false, false, false⟩

/-- `MainWindow.onFilterPendingReview` (lines 463-476), entered with
`pendingOn` already holding the button's new value: reset the other two
buttons; display the pending-review subset of the full collection when the
button is now on, the full collection when it is off. -/
def onFilterPendingReview (st : FilterState) : FilterState :=
  ⟨st.objects,
   if st.pendingOn then st.objects.filter (fun o => o.pending_review) else st.objects,
   false, st.pendingOn, false⟩

/-- `MainWindow.onFilterDeleted` (lines 478-491), symmetric to the
pending-review handler. -/
def onFilterDeleted (st : FilterState) : FilterState :=
  ⟨st.objects,
   if st.deletedOn then st.objects.filter (fun o => o.deleted) else st.objects,
   false, false, st.deletedOn⟩

/-- A user click on the search toggle: the button value flips, then the
handler runs. -/
def toggleSearch (st : FilterState) (q : String) (isRegex : Bool) : FilterState :=
  onFilterSearch ⟨st.objects, st.view, !st.searchOn, st.pendingOn, st.deletedOn⟩ q isRegex

/-- A user click on the pending-review toggle. -/
def togglePendingReview (st : FilterState) : FilterState :=
  onFilterPendingReview ⟨st.objects, st.view, st.searchOn, !st.pendingOn, st.deletedOn⟩

/-- A user click on the deleted toggle. -/
def toggleDeleted (st : FilterState) : FilterState :=
  onFilterDeleted ⟨st.objects, st.view, st.searchOn, st.pendingOn, !st.deletedOn⟩

/-- At most one of the three filter buttons is active. -/
def atMostOneFilter (st : FilterState) : Bool :=
  !(st.searchOn && st.pendingOn) && !(st.searchOn && st.deletedOn) &&
    !(st.pendingOn && st.deletedOn)

/-! ### The Save button handler (`MainWindow.onSave`, lines 294-298) -/

/-- The names visible in the body of `MainWindow.onSave`: its locals
(`self`, `event`) together with the module-level bindings of
`dataset_edit.py` (imports and top-level definitions).  Python would also
consult the builtins, which bind no name `edited_metadata` either; the
identifier is only ever a local of `MainWindow.save` and of
`MainWindow.onOpen`. -/
def onSaveVisibleNames : List String :=
  ["self", "event",
   "audioop", "csv", "json", "operator", "os", "sys", "wave", "dataclass", "Path",
   "miniaudio", "regex", "wx", "sc", "ColumnDefn", "ImmutableObjectListView",
   "SimpleDialog", "make_sized_static_box", "DEFAULT_TITLE", "EDITED_METADATA_FILENAME",
   "SAVE_SOUND", "ALERT_SOUND", "NAV_SOUND", "WavAndTranscript", "SearchWindow",
   "MainWindow"]

/-- `MainWindow.onSave` (lines 294-298): run `save()`; when it returns
`True`, evaluate the success message, an f-string referencing the name
`edited_metadata` — a `NameError` if that name is not visible in the
handler's scope.  An exception escaping `save()` itself propagates. -/
def onSave (st : SessionState) (overwriteYes historyWriteFails : Bool) : Except PyError Unit :=
  match (save st overwriteYes historyWriteFails).result with
  | Except.error e => Except.error e
  | Except.ok false => Except.ok ()
  | Except.ok true =>
    if onSaveVisibleNames.contains "edited_metadata" then Except.ok ()
    else Except.error PyError.nameError

/-- The entry rebuilt by the loader from a saved record of `o`: same fields,
with the audio path reassembled as `<dir>/wavs/<stem>.wav`. -/
def reloadObj (o : WavAndTranscript) : WavAndTranscript :=
  ⟨o.idx, pathStem o.wavname ++ ".wav", o.transcript, o.pending_review, o.deleted⟩

/-- Totalized parse of one record (junk on records the loader rejects),
used to name the result of `loadEntry` on records known to parse. -/
def reloadDict (d : JDict) : WavAndTranscript :=
  match loadEntry d with
  | some o => o
  | none => ⟨0, "", "", false, false⟩

/-! ### Helper lemmas -/

/-- The records written by `save` are a permutation of the serialized
entries. -/
lemma saveEntries_perm (objs : List WavAndTranscript) :
    (saveEntries objs).Perm (objs.map WavAndTranscript.asdict) :=
  List.perm_insertionSort dictLe (objs.map WavAndTranscript.asdict)

/-- The records written by `save` are sorted by their `"idx"` key. -/
lemma saveEntries_sorted (objs : List WavAndTranscript) :
    List.Sorted dictLe (saveEntries objs) :=
  List.sorted_insertionSort dictLe (objs.map WavAndTranscript.asdict)

/-- Membership in the saved records. -/
lemma mem_saveEntries {objs : List WavAndTranscript} {d : JDict} :
    d ∈ saveEntries objs ↔ ∃ o ∈ objs, WavAndTranscript.asdict o = d := by
  rw [saveEntries, List.mem_insertionSort, List.mem_map]

/-- In a character list ending with `".wav"`, the last dot is the one that
starts that extension. -/
lemma lastDotIdx_append_wav (l : List Char) :
    lastDotIdx (l ++ ['.', 'w', 'a', 'v']) = some l.length := by
  induction l with
  | nil => rfl
  | cons c cs ih => simp [lastDotIdx, ih]

/-- `PurePath.stem` strips a freshly appended `".wav"` extension, provided
the base name is nonempty (CPython treats `".wav"` itself as an
extension-less dotfile). -/
lemma pathStem_append_wav (f : String) (h : f ≠ "") : pathStem (f ++ ".wav") = f := by
  have hne : f.data ≠ [] := fun hnil => h (String.ext_iff.mpr hnil)
  have hlen : 0 < f.data.length := List.length_pos.mpr hne
  have hd : (f ++ ".wav").data = f.data ++ ['.', 'w', 'a', 'v'] := by
    rw [String.data_append]
  simp only [pathStem, hd, lastDotIdx_append_wav]
  rw [if_pos]
  · rw [List.take_left]
  · exact ⟨hlen, by simp⟩


lemma loadEntry_asdict (o : WavAndTranscript) :
    loadEntry o.asdict = some (reloadObj o) := rfl

lemma reloadDict_asdict (o : WavAndTranscript) :
    reloadDict o.asdict = reloadObj o := rfl

/-- Re-serializing a reloaded entry reproduces the record, provided the
original stem is nonempty (true of every entry the loader itself builds:
its `wavname` ends in `".wav"`, whose stem is never empty). -/
lemma asdict_reloadObj (o : WavAndTranscript) (h : pathStem o.wavname ≠ "") :
    (reloadObj o).asdict = o.asdict := by
  simp [WavAndTranscript.asdict, reloadObj, pathStem_append_wav _ h]

/-- The record-parsing loop succeeds and maps `g` over the list when every
record parses to `g` of itself. -/
lemma loadEntries_of_forall (l : List JDict) (g : JDict → WavAndTranscript)
    (h : ∀ d ∈ l, loadEntry d = some (g d)) : loadEntries l = some (l.map g) := by
  induction l with
  | nil => rfl
  | cons d ds ih =>
    simp only [loadEntries, h d (List.mem_cons_self d ds),
      ih (fun e he => h e (List.mem_cons_of_mem d he)), List.map]

/-- C4 (confirmed): loading the JSON records produced by `save()` and saving
again with no intervening edits reproduces exactly the same records in the
same order (the session's entry data round-trips).  The hypothesis — every
entry's audio stem is nonempty — holds for every loadable session, whose
`wavname`s end in `".wav"` and therefore have nonempty stems. -/
theorem c4_save_load_save_roundtrip (objs : List WavAndTranscript)
    (h : ∀ o ∈ objs, pathStem o.wavname ≠ "") :
    ∃ L, loadJson (saveEntries objs) = some L ∧ saveEntries L = saveEntries objs := by
  have hmem : ∀ d ∈ saveEntries objs, ∃ o ∈ objs, WavAndTranscript.asdict o = d :=
    fun d hd => mem_saveEntries.mp hd
  have hg : ∀ d ∈ saveEntries objs, loadEntry d = some (reloadDict d) := by
    intro d hd
    obtain ⟨o, _, rfl⟩ := hmem d hd
    rfl
  have hLE : loadEntries (saveEntries objs) = some ((saveEntries objs).map reloadDict) :=
    loadEntries_of_forall _ reloadDict hg
  have hidx : ∀ d ∈ saveEntries objs, (reloadDict d).idx = dictIdx d := by
    intro d hd
    obtain ⟨o, _, rfl⟩ := hmem d hd
    rfl
  have hsort : List.Sorted objLe ((saveEntries objs).map reloadDict) := by
    refine List.pairwise_map.mpr ?_
    refine (saveEntries_sorted objs).imp_of_mem ?_
    intro a b ha hb hab
    show (reloadDict a).idx ≤ (reloadDict b).idx
    rw [hidx a ha, hidx b hb]
    exact hab
  refine ⟨(saveEntries objs).map reloadDict, ?_, ?_⟩
  · rw [loadJson, hLE, Option.map_some']
    rw [hsort.insertionSort_eq]
  · have hback : ∀ d ∈ saveEntries objs, WavAndTranscript.asdict (reloadDict d) = d := by
      intro d hd
      obtain ⟨o, ho, rfl⟩ := hmem d hd
      rw [reloadDict_asdict]
      exact asdict_reloadObj o (h o ho)
    show List.insertionSort dictLe (((saveEntries objs).map reloadDict).map WavAndTranscript.asdict)
        = saveEntries objs
    rw [List.map_map]
    have hmap : List.map (WavAndTranscript.asdict ∘ reloadDict) (saveEntries objs)
        = List.map id (saveEntries objs) := List.map_congr_left (fun d hd => hback d hd)
    rw [hmap, List.map_id]
    exact (saveEntries_sorted objs).insertionSort_eq

/-- Witness for C4: a concrete two-entry session round-trips. -/
theorem c4_witness :
    (∀ o ∈ [(⟨2, "a.wav", "x", true, true⟩ : WavAndTranscript), ⟨5, "b.wav", "y", false, false⟩],
      pathStem o.wavname ≠ "") ∧
    ∃ L, loadJson (saveEntries [(⟨2, "a.wav", "x", true, true⟩ : WavAndTranscript), ⟨5, "b.wav", "y", false, false⟩]) = some L ∧
      saveEntries L = saveEntries [(⟨2, "a.wav", "x", true, true⟩ : WavAndTranscript), ⟨5, "b.wav", "y", false, false⟩] :=
  ⟨by decide, c4_save_load_save_roundtrip _ (by decide)⟩

/-- C1 (amended): every save that proceeds writes to
`metadata.edited.json` the serialization of all entries — deleted ones
included — sorted by `idx` ascending; each record carries exactly the keys
`idx`, `filename` (the audio stem), `text`, `pending_review` and `deleted`
(the source keys, not the spec's `index` / `transcript`). -/
theorem c1_save_writes_all_entries_sorted (st : SessionState)
    (overwriteYes historyWriteFails : Bool) (h1 : st.dirty = true)
    (h2 : (st.isSourceCsv && st.editedFileExists && !overwriteYes) = false) :
    ∃ ds, (save st overwriteYes historyWriteFails).jsonFile = some (EDITED_METADATA_FILENAME, ds) ∧
      ds.Perm (st.objects.map WavAndTranscript.asdict) ∧
      List.Sorted dictLe ds ∧
      (∀ o ∈ st.objects, WavAndTranscript.asdict o ∈ ds) ∧
      (∀ d ∈ ds, d.map Prod.fst = ["idx", "filename", "text", "pending_review", "deleted"]) := by
  refine ⟨saveEntries st.objects, ?_, saveEntries_perm st.objects, saveEntries_sorted st.objects,
    ?_, ?_⟩
  · simp only [save, h1, h2, Bool.not_true, if_false]
    cases st.focusedPos with
    | none => rfl
    | some pos => cases historyWriteFails <;> rfl
  · intro o ho
    exact (saveEntries_perm st.objects).mem_iff.mpr (List.mem_map_of_mem _ ho)
  · intro d hd
    obtain ⟨o, _, rfl⟩ := mem_saveEntries.mp hd
    rfl

/-- Witness for C1 at a concrete one-entry dirty session. -/
theorem c1_witness :
    ∃ ds, (save ⟨[⟨0, "a.wav", "hello", false, true⟩], [⟨0, "a.wav", "hello", false, true⟩],
        true, false, false, some 0⟩ true false).jsonFile = some (EDITED_METADATA_FILENAME, ds) ∧
      ds.Perm ([(⟨0, "a.wav", "hello", false, true⟩ : WavAndTranscript)].map WavAndTranscript.asdict) ∧
      List.Sorted dictLe ds ∧
      (∀ o ∈ [(⟨0, "a.wav", "hello", false, true⟩ : WavAndTranscript)], WavAndTranscript.asdict o ∈ ds) ∧
      (∀ d ∈ ds, d.map Prod.fst = ["idx", "filename", "text", "pending_review", "deleted"]) :=
  c1_save_writes_all_entries_sorted _ true false rfl rfl

/-- Counterexample for C1 as stated: a saved record carries no field named
`index` and none named `transcript`; the keys actually written are `idx`,
`filename`, `text`, `pending_review`, `deleted`. -/
theorem c1_counterexample :
    (saveEntries [⟨0, "a.wav", "hello", false, false⟩]).map (fun d => dictGet d "index") = [none] ∧
    (saveEntries [⟨0, "a.wav", "hello", false, false⟩]).map (fun d => dictGet d "transcript") = [none] ∧
    (saveEntries [⟨0, "a.wav", "hello", false, false⟩]).map (fun d => d.map Prod.fst) =
      [["idx", "filename", "text", "pending_review", "deleted"]] := by
  decide

/-- C2 (amended): `onOpen` loads a session precisely when `metadata.csv`
exists in the chosen directory; when `metadata.edited.json` is absent the
user declined to resume, `metadata.csv` itself is parsed; a directory
without `metadata.csv` fails with the `metadata.csv`-not-found error even
when a previously saved `metadata.edited.json` is present. -/
theorem c2_load_requires_metadata_csv (csvExists jsonExists resumeYes : Bool) :
    ((resolveMetadata csvExists jsonExists resumeYes).isSome ↔ csvExists = true) ∧
    (resolveMetadata csvExists jsonExists resumeYes = some MetadataSource.json ↔
      csvExists = true ∧ jsonExists = true ∧ resumeYes = true) ∧
    (resolveMetadata csvExists jsonExists resumeYes = some MetadataSource.csv ↔
      csvExists = true ∧ (jsonExists = false ∨ resumeYes = false)) := by
  cases csvExists <;> cases jsonExists <;> cases resumeYes <;> decide

/-- Counterexample for C2 as stated: a directory containing only
`metadata.edited.json` (no `metadata.csv`) does not load — `onOpen` errors
out instead of creating a session. -/
theorem c2_counterexample : resolveMetadata false true true = none := by
  decide

/-- C3 (amended): `onExportCSV` requests confirmation if and only if *any*
entry has `pending_review` set — the scan covers deleted entries too, not
only surviving ones; declining the prompt aborts the export, leaving the
export file untouched, while the implicitly performed `save()` stands. -/
theorem c3_export_prompt_scans_all_entries (st : SessionState) (oy hf ey : Bool)
    (hsave : ∀ e, (save st oy hf).result ≠ Except.error e) :
    (onExportCSV st oy hf ey).saveOutcome = save st oy hf ∧
    ((onExportCSV st oy hf ey).csvFile = none ↔ hasPendingReview st.objects = true ∧ ey = false) ∧
    (hasPendingReview st.objects = true ↔ ∃ o ∈ st.objects, o.pending_review = true) := by
  refine ⟨?_, ?_, by simp [hasPendingReview, List.any_eq_true]⟩ <;>
  · cases hres : (save st oy hf).result with
    | error e => exact absurd hres (hsave e)
    | ok b =>
      simp only [onExportCSV, hres]
      cases hpr : hasPendingReview st.objects <;> cases ey <;> simp

/-- Witness for C3: a pending, non-deleted entry in a dirty session. -/
theorem c3_witness :
    (onExportCSV ⟨[⟨0, "a.wav", "x", true, false⟩], [⟨0, "a.wav", "x", true, false⟩],
        true, false, false, some 0⟩ true false false).saveOutcome =
      save ⟨[⟨0, "a.wav", "x", true, false⟩], [⟨0, "a.wav", "x", true, false⟩],
        true, false, false, some 0⟩ true false ∧
    ((onExportCSV ⟨[⟨0, "a.wav", "x", true, false⟩], [⟨0, "a.wav", "x", true, false⟩],
        true, false, false, some 0⟩ true false false).csvFile = none ↔
      hasPendingReview [(⟨0, "a.wav", "x", true, false⟩ : WavAndTranscript)] = true ∧ false = false) ∧
    (hasPendingReview [(⟨0, "a.wav", "x", true, false⟩ : WavAndTranscript)] = true ↔
      ∃ o ∈ [(⟨0, "a.wav", "x", true, false⟩ : WavAndTranscript)], o.pending_review = true) :=
  c3_export_prompt_scans_all_entries _ true false false (fun e => by cases e <;> decide)

/-- Counterexample for C3 as stated: with a single entry that is pending
*and* deleted there is no surviving pending entry, yet the handler scans
all entries, finds the flag, prompts, and a declining answer aborts the
export (no CSV file is written). -/
theorem c3_counterexample :
    hasPendingReview [⟨0, "a.wav", "x", true, true⟩] = true ∧
    ([(⟨0, "a.wav", "x", true, true⟩ : WavAndTranscript)].any
      (fun o => !o.deleted && o.pending_review)) = false ∧
    (onExportCSV ⟨[⟨0, "a.wav", "x", true, true⟩], [⟨0, "a.wav", "x", true, true⟩],
      true, false, false, some 0⟩ true false false).csvFile = none := by
  decide

/-- One clean row (no character that forces CSV quoting) serializes to the
two fields around a literal empty middle field, terminated by CRLF. -/
lemma csvLine_clean (a b : String) (ha : csvNeedsQuoting a = false)
    (hb : csvNeedsQuoting b = false) :
    csvLine [a, "", b] = a ++ "||" ++ b ++ "\r\n" := by
  have h0 : csvNeedsQuoting "" = false := rfl
  have hp : ("|" : String).data = ['|'] := rfl
  have hpp : ("||" : String).data = ['|', '|'] := rfl
  have hrn : ("\r\n" : String).data = ['\r', '\n'] := rfl
  have he : ("" : String).data = [] := rfl
  simp only [csvLine, joinFields, csvField, ha, hb, h0, if_false]
  simp [String.ext_iff, String.data_append, hp, hpp, hrn, he]

/-- C5 (amended): `onExportCSV` writes to `metadata.edited.csv` (the JSON
file name with its suffix replaced) exactly one pipe-delimited row
`stem||stripped-transcript` per entry with `deleted = false`, none for
deleted entries, in the order of the underlying collection — but each row
is terminated by `"\r\n"` (the `csv.writer` `excel` dialect terminator,
which `newline="\n"` does not translate), not by `"\n"`.  The cleanliness
hypothesis excludes fields that `QUOTE_MINIMAL` would quote. -/
theorem c5_export_csv_rows (st : SessionState) (oy hf : Bool)
    (hsave : ∀ e, (save st oy hf).result ≠ Except.error e)
    (hclean : ∀ o ∈ st.objects, csvNeedsQuoting (pathStem o.wavname) = false ∧
      csvNeedsQuoting (pyStrip o.transcript) = false) :
    (onExportCSV st oy hf true).csvFile =
      some (withSuffix EDITED_METADATA_FILENAME ".csv",
        String.join ((st.objects.filter (fun o => !o.deleted)).map
          (fun o => pathStem o.wavname ++ "||" ++ pyStrip o.transcript ++ "\r\n"))) := by
  have hcontent : csvContent (exportRows st.objects) =
      String.join ((st.objects.filter (fun o => !o.deleted)).map
        (fun o => pathStem o.wavname ++ "||" ++ pyStrip o.transcript ++ "\r\n")) := by
    rw [csvContent, exportRows, List.map_map]
    congr 1
    refine List.map_congr_left ?_
    intro o ho
    exact csvLine_clean _ _ (hclean o (List.mem_of_mem_filter ho)).1
      (hclean o (List.mem_of_mem_filter ho)).2
  cases hres : (save st oy hf).result with
  | error e => exact absurd hres (hsave e)
  | ok b =>
    simp only [onExportCSV, hres]
    cases hpr : hasPendingReview st.objects <;> simp [hcontent]

/-- Witness for C5: a two-entry session, one entry deleted, exporting
`a||hello` followed by CRLF only. -/
theorem c5_witness :
    (onExportCSV ⟨[⟨0, "a.wav", " hello ", false, false⟩, ⟨1, "b.wav", "zap", false, true⟩],
        [⟨0, "a.wav", " hello ", false, false⟩], true, false, false, some 0⟩ true false true).csvFile =
      some (withSuffix EDITED_METADATA_FILENAME ".csv",
        String.join (([(⟨0, "a.wav", " hello ", false, false⟩ : WavAndTranscript),
            ⟨1, "b.wav", "zap", false, true⟩].filter (fun o => !o.deleted)).map
          (fun o => pathStem o.wavname ++ "||" ++ pyStrip o.transcript ++ "\r\n"))) :=
  c5_export_csv_rows _ true false (fun e => by cases e <;> decide) (by decide)

/-- Counterexample for C5 as stated: the exported bytes end rows with
`"\r\n"`, not with `"\n"`. -/
theorem c5_counterexample :
    (onExportCSV ⟨[⟨0, "a.wav", "hello", false, false⟩], [⟨0, "a.wav", "hello", false, false⟩],
      true, false, false, some 0⟩ true false true).csvFile =
      some ("metadata.edited.csv", "a||hello" ++ "\r\n") ∧
    "a||hello" ++ "\r\n" ≠ "a||hello" ++ "\n" := by
  decide

/-- C6 (amended): activating the search filter with a nonempty query that
has matches makes the view exactly the entries *of the currently displayed
list* whose transcript matches — in plain mode those containing the query
as a case-sensitive substring, in regex (literal-pattern) mode those whose
transcript starts with the pattern (`regex.match` anchors at the start of
the string, not search-anywhere).  The base collection is the displayed
list, not the session's full entry collection. -/
theorem c6_search_filter_semantics (st : FilterState) (q : String) (isRegex : Bool)
    (hs : st.searchOn = false) (hq : q ≠ "")
    (hm : searchMatches q isRegex st.view ≠ []) :
    (toggleSearch st q isRegex).view = searchMatches q isRegex st.view ∧
    (∀ o, o ∈ searchMatches q false st.view ↔
      o ∈ st.view ∧ strContains o.transcript q = true) ∧
    (∀ o, o ∈ searchMatches q true st.view ↔
      o ∈ st.view ∧ regexLiteralMatch q o.transcript = true) := by
  refine ⟨?_, ?_, ?_⟩
  · simp only [toggleSearch, onFilterSearch, hs, Bool.not_false, if_true]
    rw [if_neg hq, if_neg (fun hh => hm (List.isEmpty_iff.mp hh))]
  · intro o
    simp [searchMatches, List.mem_filter]
  · intro o
    simp [searchMatches, List.mem_filter]

/-- Witness for C6 at the spec's own example: transcripts `"hello world"`
and `"say hello"`; the regex query `hello` matches only the first, the
plain query matches both. -/
theorem c6_witness :
    ((toggleSearch ⟨[⟨0, "a.wav", "hello world", false, false⟩, ⟨1, "b.wav", "say hello", false, false⟩],
        [⟨0, "a.wav", "hello world", false, false⟩, ⟨1, "b.wav", "say hello", false, false⟩],
        false, false, false⟩ "hello" true).view =
      searchMatches "hello" true [⟨0, "a.wav", "hello world", false, false⟩, ⟨1, "b.wav", "say hello", false, false⟩] ∧
      (∀ o, o ∈ searchMatches "hello" false [(⟨0, "a.wav", "hello world", false, false⟩ : WavAndTranscript), ⟨1, "b.wav", "say hello", false, false⟩] ↔
        o ∈ [(⟨0, "a.wav", "hello world", false, false⟩ : WavAndTranscript), ⟨1, "b.wav", "say hello", false, false⟩] ∧ strContains o.transcript "hello" = true) ∧
      (∀ o, o ∈ searchMatches "hello" true [(⟨0, "a.wav", "hello world", false, false⟩ : WavAndTranscript), ⟨1, "b.wav", "say hello", false, false⟩] ↔
        o ∈ [(⟨0, "a.wav", "hello world", false, false⟩ : WavAndTranscript), ⟨1, "b.wav", "say hello", false, false⟩] ∧ regexLiteralMatch "hello" o.transcript = true)) ∧
    searchMatches "hello" true [(⟨0, "a.wav", "hello world", false, false⟩ : WavAndTranscript), ⟨1, "b.wav", "say hello", false, false⟩] =
      [⟨0, "a.wav", "hello world", false, false⟩] ∧
    searchMatches "hello" false [(⟨0, "a.wav", "hello world", false, false⟩ : WavAndTranscript), ⟨1, "b.wav", "say hello", false, false⟩] =
      [⟨0, "a.wav", "hello world", false, false⟩, ⟨1, "b.wav", "say hello", false, false⟩] :=
  ⟨c6_search_filter_semantics _ "hello" true rfl (by decide) (by decide), by decide, by decide⟩

/-- Counterexample for C6 as stated: with the pending-review filter active
the displayed list is a strict subset, and a subsequent plain search for
`"world"` filters only that subset — the resulting view omits a
non-pending entry whose transcript contains the query, so the view is not
the set of *all* entries whose transcript contains the query. -/
theorem c6_counterexample :
    (toggleSearch (togglePendingReview ⟨[⟨0, "a.wav", "world x", true, false⟩, ⟨1, "b.wav", "world y", false, false⟩],
        [⟨0, "a.wav", "world x", true, false⟩, ⟨1, "b.wav", "world y", false, false⟩],
        false, false, false⟩) "world" false).searchOn = true ∧
    (toggleSearch (togglePendingReview ⟨[⟨0, "a.wav", "world x", true, false⟩, ⟨1, "b.wav", "world y", false, false⟩],
        [⟨0, "a.wav", "world x", true, false⟩, ⟨1, "b.wav", "world y", false, false⟩],
        false, false, false⟩) "world" false).view = [⟨0, "a.wav", "world x", true, false⟩] ∧
    [(⟨0, "a.wav", "world x", true, false⟩ : WavAndTranscript), ⟨1, "b.wav", "world y", false, false⟩].filter
      (fun o => strContains o.transcript "world") =
      [⟨0, "a.wav", "world x", true, false⟩, ⟨1, "b.wav", "world y", false, false⟩] ∧
    [(⟨0, "a.wav", "world x", true, false⟩ : WavAndTranscript)] ≠
      [⟨0, "a.wav", "world x", true, false⟩, ⟨1, "b.wav", "world y", false, false⟩] := by
  decide

/-- C7 (amended): every filter activation deactivates the other two
buttons, so at most one filter is active at any time; no handler mutates
the underlying entry collection; the pending-review and deleted views are
the matching subsets of the full collection in its order; the search view,
however, is derived from the *currently displayed* list (a subset of it in
its relative order), not from the full collection. -/
theorem c7_filter_exclusivity_and_views (st : FilterState) (q : String) (isRegex : Bool) :
    atMostOneFilter (toggleSearch st q isRegex) = true ∧
    atMostOneFilter (togglePendingReview st) = true ∧
    atMostOneFilter (toggleDeleted st) = true ∧
    (toggleSearch st q isRegex).objects = st.objects ∧
    (togglePendingReview st).objects = st.objects ∧
    (toggleDeleted st).objects = st.objects ∧
    (togglePendingReview st).view =
      (if st.pendingOn then st.objects else st.objects.filter (fun o => o.pending_review)) ∧
    (toggleDeleted st).view =
      (if st.deletedOn then st.objects else st.objects.filter (fun o => o.deleted)) ∧
    (st.objects.filter (fun o => o.pending_review)).Sublist st.objects ∧
    (st.searchOn = false → q ≠ "" → searchMatches q isRegex st.view ≠ [] →
      (toggleSearch st q isRegex).view = searchMatches q isRegex st.view ∧
      (searchMatches q isRegex st.view).Sublist st.view) := by
  refine ⟨?_, ?_, ?_, ?_, rfl, rfl, ?_, ?_, List.filter_sublist _, ?_⟩
  · simp only [toggleSearch, onFilterSearch, atMostOneFilter]
    split_ifs <;> rfl
  · simp only [togglePendingReview, onFilterPendingReview, atMostOneFilter]
    cases st.pendingOn <;> rfl
  · simp only [toggleDeleted, onFilterDeleted, atMostOneFilter]
    cases st.deletedOn <;> rfl
  · simp only [toggleSearch, onFilterSearch]
    split_ifs <;> rfl
  · cases h : st.pendingOn <;> simp [togglePendingReview, onFilterPendingReview, h]
  · cases h : st.deletedOn <;> simp [toggleDeleted, onFilterDeleted, h]
  · intro hs hq hm
    constructor
    · simp only [toggleSearch, onFilterSearch, hs, Bool.not_false, if_true]
      rw [if_neg hq, if_neg (fun hh => hm (List.isEmpty_iff.mp hh))]
    · cases isRegex <;> exact List.filter_sublist _

/-- Witness for C7: a concrete activation from an unfiltered two-entry
state, including the search conjunct with its antecedents discharged. -/
theorem c7_witness :
    atMostOneFilter (toggleSearch ⟨[⟨0, "a.wav", "hello world", false, false⟩],
      [⟨0, "a.wav", "hello world", false, false⟩], false, false, false⟩ "hello" false) = true ∧
    (toggleSearch ⟨[⟨0, "a.wav", "hello world", false, false⟩],
      [⟨0, "a.wav", "hello world", false, false⟩], false, false, false⟩ "hello" false).view =
      searchMatches "hello" false [⟨0, "a.wav", "hello world", false, false⟩] :=
  ⟨(c7_filter_exclusivity_and_views ⟨[⟨0, "a.wav", "hello world", false, false⟩],
      [⟨0, "a.wav", "hello world", false, false⟩], false, false, false⟩ "hello" false).1,
   ((c7_filter_exclusivity_and_views ⟨[⟨0, "a.wav", "hello world", false, false⟩],
      [⟨0, "a.wav", "hello world", false, false⟩], false, false, false⟩ "hello" false).2.2.2.2.2.2.2.2.2
      rfl (by decide) (by decide)).1⟩

/-- Counterexample for C7 as stated: activating the search filter while the
pending-review filter is active does deactivate the latter, but the search
view is computed from the stale displayed list — it is not the subset of
the session's full collection satisfying the search predicate. -/
theorem c7_counterexample :
    (toggleSearch (togglePendingReview ⟨[⟨0, "a.wav", "hello a", true, false⟩, ⟨1, "b.wav", "hello b", false, false⟩],
        [⟨0, "a.wav", "hello a", true, false⟩, ⟨1, "b.wav", "hello b", false, false⟩],
        false, false, false⟩) "hello" true).searchOn = true ∧
    (toggleSearch (togglePendingReview ⟨[⟨0, "a.wav", "hello a", true, false⟩, ⟨1, "b.wav", "hello b", false, false⟩],
        [⟨0, "a.wav", "hello a", true, false⟩, ⟨1, "b.wav", "hello b", false, false⟩],
        false, false, false⟩) "hello" true).view = [⟨0, "a.wav", "hello a", true, false⟩] ∧
    [(⟨0, "a.wav", "hello a", true, false⟩ : WavAndTranscript), ⟨1, "b.wav", "hello b", false, false⟩].filter
      (fun o => regexLiteralMatch "hello" o.transcript) =
      [⟨0, "a.wav", "hello a", true, false⟩, ⟨1, "b.wav", "hello b", false, false⟩] ∧
    [(⟨0, "a.wav", "hello a", true, false⟩ : WavAndTranscript)] ≠
      [⟨0, "a.wav", "hello a", true, false⟩, ⟨1, "b.wav", "hello b", false, false⟩] := by
  decide

/-- C8 (amended): a failing `.last_idx` write makes the exception escape
`save()` — the write is not guarded by any try/except, so the failure does
surface to the caller — although `metadata.edited.json` has already been
written and the dirty flag already cleared by then. -/
theorem c8_history_write_failure_escapes (st : SessionState) (overwriteYes : Bool) (pos : Nat)
    (h1 : st.dirty = true)
    (h2 : (st.isSourceCsv && st.editedFileExists && !overwriteYes) = false)
    (h3 : st.focusedPos = some pos) :
    (save st overwriteYes true).result = Except.error PyError.osError ∧
    (save st overwriteYes true).jsonFile = some (EDITED_METADATA_FILENAME, saveEntries st.objects) ∧
    (save st overwriteYes true).dirtyAfter = false ∧
    (save st overwriteYes true).historyFile = none := by
  simp [save, h1, h2, h3]

/-- Witness for C8 at a concrete dirty, focused session. -/
theorem c8_witness :
    (save ⟨[⟨0, "a.wav", "x", false, false⟩], [⟨0, "a.wav", "x", false, false⟩],
        true, false, false, some 0⟩ true true).result = Except.error PyError.osError ∧
    (save ⟨[⟨0, "a.wav", "x", false, false⟩], [⟨0, "a.wav", "x", false, false⟩],
        true, false, false, some 0⟩ true true).jsonFile =
      some (EDITED_METADATA_FILENAME, saveEntries [⟨0, "a.wav", "x", false, false⟩]) ∧
    (save ⟨[⟨0, "a.wav", "x", false, false⟩], [⟨0, "a.wav", "x", false, false⟩],
        true, false, false, some 0⟩ true true).dirtyAfter = false ∧
    (save ⟨[⟨0, "a.wav", "x", false, false⟩], [⟨0, "a.wav", "x", false, false⟩],
        true, false, false, some 0⟩ true true).historyFile = none :=
  c8_history_write_failure_escapes _ true 0 rfl rfl rfl

/-- Counterexample for C8 as stated: a concrete save in which the history
write fails and the failure is surfaced as an escaping exception. -/
theorem c8_counterexample :
    (save ⟨[⟨0, "a.wav", "hello", false, false⟩], [⟨0, "a.wav", "hello", false, false⟩],
      true, false, false, some 0⟩ true true).result = Except.error PyError.osError := by
  decide

/-- C9 (amended): the integer persisted to the `.last_idx` sidecar is
`wavList.GetFocusedItem()` — the 0-based row position of the focused item
in the currently displayed list — not the focused entry's stable `idx`
field; the two agree only when the displayed rows happen to be numbered
like their positions. -/
theorem c9_history_stores_view_position (st : SessionState) (overwriteYes : Bool) (pos : Nat)
    (h1 : st.dirty = true)
    (h2 : (st.isSourceCsv && st.editedFileExists && !overwriteYes) = false)
    (h3 : st.focusedPos = some pos) :
    (save st overwriteYes false).historyFile = some (".last_idx", pos) := by
  simp [save, h1, h2, h3]

/-- Witness for C9 at a concrete focused position. -/
theorem c9_witness :
    (save ⟨[⟨10, "a.wav", "x", false, false⟩, ⟨20, "b.wav", "y", false, false⟩],
        [⟨10, "a.wav", "x", false, false⟩, ⟨20, "b.wav", "y", false, false⟩],
        true, false, false, some 1⟩ true false).historyFile = some (".last_idx", 1) :=
  c9_history_stores_view_position _ true 1 rfl rfl rfl

/-- Counterexample for C9 as stated: with non-contiguous indices `10`, `20`
and focus on the second row, the sidecar receives the row position `1`,
while the focused entry's `idx` field is `20`. -/
theorem c9_counterexample :
    (save ⟨[⟨10, "a.wav", "x", false, false⟩, ⟨20, "b.wav", "y", false, false⟩],
      [⟨10, "a.wav", "x", false, false⟩, ⟨20, "b.wav", "y", false, false⟩],
      true, false, false, some 1⟩ true false).historyFile = some (".last_idx", 1) ∧
    ([(⟨10, "a.wav", "x", false, false⟩ : WavAndTranscript), ⟨20, "b.wav", "y", false, false⟩][1]?).map
      (fun o => o.idx) = some 20 ∧
    (1 : Int) ≠ 20 := by
  decide

/-- C10 (confirmed): whenever `save()` returns `True`, the Save-button
handler evaluates its success message, an f-string referencing the name
`edited_metadata`, which is bound only as a local of `save` and of
`onOpen` and is visible neither among `onSave`'s locals nor among the
module's globals (nor builtins) — so the handler's success branch always
raises `NameError`. -/
theorem c10_onsave_success_raises_nameerror (st : SessionState) (overwriteYes historyWriteFails : Bool)
    (h : (save st overwriteYes historyWriteFails).result = Except.ok true) :
    onSave st overwriteYes historyWriteFails = Except.error PyError.nameError := by
  unfold onSave
  rw [h]
  decide

/-- Witness for C10 at a concrete dirty session (no focused row, so the
history write is skipped and `save` returns `True`). -/
theorem c10_witness :
    onSave ⟨[⟨0, "a.wav", "hello", false, false⟩], [], true, false, false, none⟩ true false =
      Except.error PyError.nameError :=
  c10_onsave_success_raises_nameerror _ true false rfl
